import Mathlib

/-!
Shallow embedding of the StayLink backend's authentication and
schema-adaptation core (the schema-adaptive auth controller, the bearer-token
access middleware, and the booking-access verification endpoint), together
with theorems settling the frozen claims about it.

Conventions of the embedding:
* JavaScript request-body values are modelled by `JsVal` with JS truthiness.
* `res.status(s).json({...})` responses are modelled by the record `Resp`
  (status code, `success` flag, and the payload fields that occur).
* The users table is modelled by `Store`: a column-capability record
  `UsersSchema` (which optional columns exist) plus a list of rows.
* `bcrypt.hash`, `bcrypt.compare`, `crypto.randomBytes` and `jwt.sign` are
  opaque parameters of the operations that use them.
* The store's reaction to the `INSERT` statement in `register` is a parameter
  (`Option DbError`): `none` means the insert succeeds, `some e` means the
  store raised `e` (for example the uniqueness-violation error raised when a
  concurrent registration won the race).
-/

namespace StayLink

/-- A JavaScript value as it can occur in a JSON request body field. -/
inductive JsVal where
  | undef
  | nullV
  | str (s : String)
  | num (n : Int)
  | boolV (b : Bool)
deriving DecidableEq, Repr

/-- JavaScript truthiness: `undefined`, `null`, `""`, `0` and `false` are falsy. -/
def JsVal.truthy : JsVal → Bool
  | .undef => false
  | .nullV => false
  | .str s => s != ""
  | .num n => n != 0
  | .boolV b => b

/-- Whether the value is a string (JavaScript `typeof v === 'string'`). -/
def JsVal.isStr : JsVal → Bool
  | .str _ => true
  | _ => false

/-- JavaScript `String(v)` coercion. -/
def jsToString : JsVal → String
  | .undef => "undefined"
  | .nullV => "null"
  | .str s => s
  | .num n => toString n
  | .boolV b => if b then "true" else "false"

/-- ASCII lowercasing of one character, modelling `toLowerCase` per character. -/
def lowerChar (c : Char) : Char :=
  if 'A' ≤ c ∧ c ≤ 'Z' then Char.ofNat (c.toNat + 32) else c

/-- Model of JavaScript `s.toLowerCase()`. -/
def lowerStr (s : String) : String := String.mk (s.data.map lowerChar)

/-- Does `hay` start with `needle`? -/
def charsStartWith : List Char → List Char → Bool
  | _, [] => true
  | [], _ :: _ => false
  | a :: as, b :: bs => a == b && charsStartWith as bs

/-- Does `hay` contain `needle` as a contiguous segment?  Models a regex
substring test such as `/duplicate key/.test(m)`. -/
def charsContain (needle : List Char) : List Char → Bool
  | [] => needle.isEmpty
  | h :: t => charsStartWith (h :: t) needle || charsContain needle t

/-- JavaScript `s.split(' ')`: split a character list at every space,
keeping empty segments. -/
def splitSp : List Char → List (List Char)
  | [] => [[]]
  | c :: cs =>
    match splitSp cs with
    | [] => [[]]
    | s :: rest => if c = ' ' then [] :: s :: rest else (c :: s) :: rest

/-- A JSON response: HTTP status, `success` flag, and the optional payload
fields used by the endpoints in scope. `res.json(...)` defaults to 200. -/
structure Resp where
  status : Nat := 200
  success : Bool
  message : Option String := none
  token : Option String := none
  name : Option String := none
  booking_token : Option String := none
  digital_signature : Option String := none
deriving DecidableEq, Repr

/-- Which optional columns the `users` table has (the capability set the
controller discovers through `information_schema.columns`). -/
structure UsersSchema where
  email : Bool
  full_name : Bool
  name : Bool
  password_hash : Bool
  aadhaar_key : Bool
  created_at : Bool
deriving DecidableEq, Repr

/-- One row of the `users` table.  A field is `none` when its column is
absent from the schema or holds SQL NULL. -/
structure UserRow where
  uid : Nat
  email : Option String
  full_name : Option String
  name : Option String
  password_hash : Option String
  aadhaar_key : Option String
deriving DecidableEq, Repr

/-- The users table: its column capabilities and its rows. -/
structure Store where
  schema : UsersSchema
  rows : List UserRow
deriving DecidableEq, Repr

/-- The database queries `register` can issue, in order of execution. -/
inductive StoreOp where
  | selectExistsByEmail
  | selectUserColumns
  | insertUsers
deriving DecidableEq, Repr

/-- An error object raised by the database driver. -/
structure DbError where
  code : Option String
  message : String
deriving DecidableEq, Repr

/-- The controller's duplicate-key test:
`error.code === '23505' || /duplicate key/i.test(error.message || '')`. -/
def isDuplicateKeyError (e : DbError) : Bool :=
  e.code == some "23505" || charsContain "duplicate key".data (lowerStr e.message).data

/-- JavaScript `email.split('@')[0]`: the part before the first `@`. -/
def localPart (s : String) : String :=
  String.mk (s.data.takeWhile (fun c => c != '@'))

/-- Password shape check: `typeof password === 'string' && password.length >= 6`
(the controller rejects when the negation holds). -/
def pwStringOk : JsVal → Bool
  | .str s => 6 ≤ s.length
  | _ => false

/-- Is at least one of the insertable columns
{email, full_name, name, password_hash, aadhaar_key} present?  When not,
`register` throws `'No compatible columns found for users insert'`. -/
def anyInsertCol (s : UsersSchema) : Bool :=
  s.email || s.full_name || s.name || s.password_hash || s.aadhaar_key

/-- The 409 conflict response of `register`, shared by the pre-check path and
the duplicate-key catch path. -/
def emailConflictResp : Resp :=
  { status := 409, success := false, message := some "Email already registered" }

/-- The generic 401 response of `login`, shared by every failure cause. -/
def invalidCredsResp : Resp :=
  { status := 401, success := false, message := some "Invalid credentials" }

/-- Result of a `register` call: the response, the resulting store, and the
trace of database operations performed. -/
structure RegisterOut where
  resp : Resp
  store : Store
  ops : List StoreOp
deriving DecidableEq, Repr

/-- The schema-adaptive `register` controller.  `hash` models `bcrypt.hash`
with cost 10, `aadhaarKey` the hex encoding of `crypto.randomBytes(16)`, and
`insertErr` the store's reaction to the final INSERT (see the file header). -/
def register (email password nameV : JsVal) (store : Store)
    (hash : String → String) (aadhaarKey : String)
    (insertErr : Option DbError) : RegisterOut :=
  if !(email.truthy && password.truthy) then
    ⟨{ status := 400, success := false, message := some "Email and password required" },
      store, []⟩
  else if !pwStringOk password then
    ⟨{ status := 400, success := false,
       message := some "Password must be at least 6 characters" }, store, []⟩
  else
    let normalizedEmail := lowerStr (jsToString email)
    if store.rows.any (fun r => r.email == some normalizedEmail) then
      ⟨emailConflictResp, store, [.selectExistsByEmail]⟩
    else
      let passwordHash := hash (jsToString password)
      let nameValue := if nameV.truthy then jsToString nameV else localPart normalizedEmail
      let s := store.schema
      if !anyInsertCol s then
        ⟨{ status := 500, success := false,
           message := some "No compatible columns found for users insert" },
          store, [.selectExistsByEmail, .selectUserColumns]⟩
      else
        match insertErr with
        | some e =>
          if isDuplicateKeyError e then
            ⟨emailConflictResp, store,
              [.selectExistsByEmail, .selectUserColumns, .insertUsers]⟩
          else
            ⟨{ status := 500, success := false,
               message := some (if e.message = "" then "Internal server error" else e.message) },
              store, [.selectExistsByEmail, .selectUserColumns, .insertUsers]⟩
        | none =>
          let row : UserRow :=
            { uid := store.rows.length
              email := if s.email then some normalizedEmail else none
              full_name := if s.full_name then some nameValue else none
              name := if s.name then some nameValue else none
              password_hash := if s.password_hash then some passwordHash else none
              aadhaar_key := if s.aadhaar_key then some aadhaarKey else none }
          ⟨{ status := 201, success := true, message := some "Account created" },
            ⟨s, store.rows ++ [row]⟩,
            [.selectExistsByEmail, .selectUserColumns, .insertUsers]⟩

/-- The `login` controller.  `cmp` models `bcrypt.compare`, `signToken`
models `jwt.sign({ userId }, secret, { expiresIn: '1h' })`. -/
def login (email password : JsVal) (store : Store)
    (cmp : String → String → Bool) (signToken : Nat → String) : Resp :=
  if !(email.truthy && password.truthy) then
    { status := 400, success := false, message := some "Email and password required" }
  else
    let normalizedEmail := lowerStr (jsToString email)
    match store.rows.find? (fun r => r.email == some normalizedEmail) with
    | none => invalidCredsResp
    | some u =>
      let ok := match u.password_hash with
        | none => false
        | some h => if h = "" then false else cmp (jsToString password) h
      if !ok then invalidCredsResp
      else { status := 200, success := true, token := some (signToken u.uid) }

/-- The decoded token payload the middleware attaches as `req.user`. -/
structure Payload where
  userId : Nat
deriving DecidableEq, Repr

/-- SQL value of the controllers' name read expression (`getNameExpr`)
for one row under a given schema. -/
def nameExprValue (s : UsersSchema) (u : UserRow) : Option String :=
  if s.full_name && s.name then (u.full_name).orElse (fun _ => u.name)
  else if s.full_name then u.full_name
  else if s.name then u.name
  else none

/-- The `getMe` controller (`req.user?.userId` is falsy when the principal is
absent or its identifier is 0). -/
def getMe (user : Option Payload) (store : Store) : Resp :=
  match user with
  | none => { status := 401, success := false, message := some "Unauthorized" }
  | some p =>
    if p.userId = 0 then
      { status := 401, success := false, message := some "Unauthorized" }
    else
      match store.rows.find? (fun r => r.uid == p.userId) with
      | none => { status := 404, success := false, message := some "User not found" }
      | some u =>
        { status := 200, success := true, name := nameExprValue store.schema u }

/-- The row-wise effect of the UPDATE statement `updateProfile` builds:
every present name-bearing column of the rows matching the principal's
identifier is set to the new name. -/
def updateRowName (sch : UsersSchema) (uid : Nat) (s : String) (r : UserRow) :
    UserRow :=
  if r.uid = uid then
    { r with
      full_name := if sch.full_name then some s else r.full_name
      name := if sch.name then some s else r.name }
  else r

/-- The `updateProfile` controller: returns the response and the updated
store. -/
def updateProfile (user : Option Payload) (nameV : JsVal) (store : Store) :
    Resp × Store :=
  match user with
  | none => ({ status := 401, success := false, message := some "Unauthorized" }, store)
  | some p =>
    if p.userId = 0 then
      ({ status := 401, success := false, message := some "Unauthorized" }, store)
    else if !(nameV.truthy && nameV.isStr) then
      ({ status := 400, success := false, message := some "Name is required" }, store)
    else
      let s := jsToString nameV
      let sch := store.schema
      if !(sch.full_name || sch.name) then
        ({ status := 400, success := false,
           message := some "No updatable name column found" }, store)
      else
        let rows := store.rows.map (updateRowName sch p.userId s)
        ({ status := 200, success := true, message := some "Profile updated",
           name := some s }, ⟨sch, rows⟩)

/-! ## Access middleware -/

/-- Outcome of `jwt.verify`: success with the decoded payload, or a thrown
error; `expired` models `error.name === 'TokenExpiredError'`. -/
inductive VerifyErr where
  | expired
  | other (msg : String)
deriving DecidableEq, Repr

/-- Result of the middleware: either a 401 response is sent (the handler is
never invoked), or the decoded principal is attached to `req.user` and
control proceeds to the handler via `next()`. -/
inductive MwOut (α : Type) where
  | reject (resp : Resp)
  | proceed (principal : α)
deriving DecidableEq, Repr

/-- The response for a missing (or empty, hence falsy) Authorization header. -/
def noTokenResp : Resp :=
  { status := 401, success := false,
    message := some "❌ No token provided. Please login first." }

/-- The response when `authHeader.split(' ')[1]` is falsy. -/
def badFormatResp : Resp :=
  { status := 401, success := false, message := some "❌ Invalid token format" }

/-- The response when `jwt.verify` throws `TokenExpiredError`. -/
def expiredResp : Resp :=
  { status := 401, success := false,
    message := some "❌ Token expired. Please login again." }

/-- The response for any other `jwt.verify` failure. -/
def invalidTokenResp (m : String) : Resp :=
  { status := 401, success := false, message := some ("❌ Invalid token: " ++ m) }

/-- Token extraction: `authHeader.split(' ')[1]`, with a falsy result
(absent second segment, or the empty string) mapped to `none`. -/
def tokenOf (header : String) : Option String :=
  match (splitSp header.data).get? 1 with
  | none => none
  | some cs => if cs.isEmpty then none else some (String.mk cs)

/-- The `verifyToken` access middleware.  `verify` models
`jwt.verify(token, secret)`.  The definition takes no store argument: the
middleware is a pure gate over the header and the verifier. -/
def verifyToken {α : Type} (verify : String → Except VerifyErr α)
    (authHeader : Option String) : MwOut α :=
  match authHeader with
  | none => .reject noTokenResp
  | some h =>
    if h = "" then .reject noTokenResp
    else
      match tokenOf h with
      | none => .reject badFormatResp
      | some tok =>
        match verify tok with
        | .ok p => .proceed p
        | .error .expired => .reject expiredResp
        | .error (.other m) => .reject (invalidTokenResp m)

/-! ## Credential store adapter expressions -/

/-- The adapter's display-name read expression (`getNameExpr`). -/
def getNameExpr (s : UsersSchema) : String :=
  if s.full_name && s.name then "COALESCE(full_name, name)"
  else if s.full_name then "full_name"
  else if s.name then "name"
  else "NULL"

/-- The adapter's created-at read expression (`getCreatedAtExpr`). -/
def getCreatedAtExpr (s : UsersSchema) : String :=
  if s.created_at then "created_at" else "NOW()"

/-! ## Booking-access verifier -/

/-- A row of the `bookings` table (times as a linear clock). -/
structure Booking where
  booking_id : Nat
  user_id : Nat
  room_id : Nat
  status : String
  check_in_time : Int
  check_out_time : Int
deriving DecidableEq, Repr

/-- A row of the `rooms` table. -/
structure Room where
  room_id : Nat
  qr_code_id : String
deriving DecidableEq, Repr

/-- A row of the `booking_tokens` table. -/
structure BookingToken where
  token_id : String
  booking_id : Nat
  is_valid : Bool
  digital_signature : String
deriving DecidableEq, Repr

/-- The tables joined by the verify-access query. -/
structure BookingDb where
  bookings : List Booking
  rooms : List Room
  tokens : List BookingToken
deriving DecidableEq, Repr

/-- The WHERE/JOIN predicate of the verify-access query for one candidate
(booking, room, token) triple. -/
def accessPred (u : Nat) (q : String) (now : Int)
    (b : Booking) (r : Room) (bt : BookingToken) : Prop :=
  b.room_id = r.room_id ∧ b.booking_id = bt.booking_id ∧ b.user_id = u ∧
    r.qr_code_id = q ∧ bt.is_valid = true ∧
    b.check_in_time ≤ now ∧ now ≤ b.check_out_time

instance (u : Nat) (q : String) (now : Int) (b : Booking) (r : Room)
    (bt : BookingToken) : Decidable (accessPred u q now b r bt) := by
  unfold accessPred; infer_instance

/-- The rows returned by the verify-access join query. -/
def accessRows (u : Nat) (q : String) (db : BookingDb) (now : Int) :
    List (Booking × Room × BookingToken) :=
  db.bookings.flatMap (fun b =>
    db.rooms.flatMap (fun r =>
      db.tokens.filterMap (fun bt =>
        if accessPred u q now b r bt then some (b, r, bt) else none)))

/-- The generic 403 response of the verify-access endpoint. -/
def accessDeniedResp : Resp :=
  { status := 403, success := false,
    message := some "Verification failed. Invalid or expired booking." }

/-- The `POST /api/room/verify-access` handler.  The request body's
`user_id` and `qr_code_id` are modelled as optional typed values; the falsy
check rejects an absent value, the 0 identifier and the empty string. -/
def verifyAccess (user_id : Option Nat) (qr_code_id : Option String)
    (db : BookingDb) (now : Int) : Resp :=
  let uOk := match user_id with | some u => u != 0 | none => false
  let qOk := match qr_code_id with | some q => q != "" | none => false
  if !(uOk && qOk) then
    { status := 400, success := false,
      message := some "User ID and QR Code ID required" }
  else
    match accessRows (user_id.getD 0) (qr_code_id.getD "") db now with
    | [] => accessDeniedResp
    | m :: _ =>
      { status := 200, success := true, message := some "Access granted!",
        booking_token := some m.2.2.token_id,
        digital_signature := some m.2.2.digital_signature }

/-! ## Fixtures used by witness theorems -/

/-- A users schema in which every optional column is present. -/
def fullSchema : UsersSchema := ⟨true, true, true, true, true, true⟩

/-- A store with the full schema and one registered user. -/
def oneUserStore : Store :=
  ⟨fullSchema, [⟨1, some "a@b.com", some "Al", some "Al", some "HH", none⟩]⟩

/-- A booking database with one in-window booking for user 5, room QR `QR1`,
and one valid booking token. -/
def sampleDb : BookingDb :=
  ⟨[⟨10, 5, 3, "confirmed", 0, 100⟩], [⟨3, "QR1"⟩], [⟨"tk", 10, true, "sig"⟩]⟩

/-! ## Helper lemmas -/

/-- Mapping a function that fixes every element of a list is the identity. -/
theorem map_eq_self_of_fixes {α : Type} (f : α → α) (l : List α)
    (h : ∀ x ∈ l, f x = x) : l.map f = l := by
  induction l with
  | nil => rfl
  | cons a t ih =>
    simp only [List.map_cons, h a (List.mem_cons_self a t),
      ih (fun x hx => h x (List.mem_cons_of_mem a hx))]

/-- `splitSp` never returns the empty list of segments. -/
theorem splitSp_ne_nil (l : List Char) : splitSp l ≠ [] := by
  cases l with
  | nil => simp [splitSp]
  | cons c cs =>
    simp only [splitSp]
    cases h : splitSp cs with
    | nil => simp
    | cons s rest => by_cases hc : c = ' ' <;> simp [hc]

/-- Splitting a space-free list yields that single segment. -/
theorem splitSp_no_space (l : List Char) (h : ∀ c ∈ l, c ≠ ' ') :
    splitSp l = [l] := by
  induction l with
  | nil => rfl
  | cons c cs ih =>
    have hc : c ≠ ' ' := h c (List.mem_cons_self c cs)
    have ih' := ih (fun x hx => h x (List.mem_cons_of_mem c hx))
    simp [splitSp, ih', hc]

/-- Splitting at the first space of `s ++ ' ' :: t` when `s` is space-free
peels off `s` as the first segment. -/
theorem splitSp_append (s t : List Char) (hs : ∀ c ∈ s, c ≠ ' ') :
    splitSp (s ++ ' ' :: t) = s :: splitSp t := by
  induction s with
  | nil =>
    simp only [List.nil_append, splitSp]
    cases h : splitSp t with
    | nil => exact absurd h (splitSp_ne_nil t)
    | cons a as => simp
  | cons c cs ih =>
    have hc : c ≠ ' ' := hs c (List.mem_cons_self c cs)
    have ih' := ih (fun x hx => hs x (List.mem_cons_of_mem c hx))
    simp [splitSp, ih', hc]

/-! ## Claim theorems -/

/-- C7: the adapter's display-name read expression is
`COALESCE(full_name, name)` when both name columns exist, the single existing
column when exactly one exists, and `NULL` when neither exists; its
created-at expression is `created_at` when that column exists and the fixed
literal `NOW()` otherwise. -/
theorem adapter_read_expressions (s : UsersSchema) :
    (s.full_name = true → s.name = true →
      getNameExpr s = "COALESCE(full_name, name)") ∧
    (s.full_name = true → s.name = false → getNameExpr s = "full_name") ∧
    (s.full_name = false → s.name = true → getNameExpr s = "name") ∧
    (s.full_name = false → s.name = false → getNameExpr s = "NULL") ∧
    (s.created_at = true → getCreatedAtExpr s = "created_at") ∧
    (s.created_at = false → getCreatedAtExpr s = "NOW()") := by
  rcases s with ⟨e, fn, n, ph, ak, ca⟩
  cases fn <;> cases n <;> cases ca <;> simp [getNameExpr, getCreatedAtExpr]

/-- Witness for C7 at two concrete schemas. -/
theorem adapter_read_expressions_witness :
    getNameExpr ⟨true, true, true, true, true, true⟩ =
      "COALESCE(full_name, name)" ∧
    getCreatedAtExpr ⟨true, true, true, true, true, false⟩ = "NOW()" :=
  ⟨(adapter_read_expressions ⟨true, true, true, true, true, true⟩).1 rfl rfl,
   (adapter_read_expressions
      ⟨true, true, true, true, true, false⟩).2.2.2.2.2 rfl⟩

/-- C5: when email or password is missing (falsy) or the password is not a
string of length at least 6, `register` answers 400 naming the
missing/invalid field, leaves the store unchanged, and performs no database
operation at all. -/
theorem register_validation_failure_pure
    (email password nameV : JsVal) (store : Store) (hash : String → String)
    (key : String) (ie : Option DbError)
    (h : (email.truthy && password.truthy) = false ∨
      pwStringOk password = false) :
    (register email password nameV store hash key ie).resp.status = 400 ∧
    ((register email password nameV store hash key ie).resp.message =
        some "Email and password required" ∨
      (register email password nameV store hash key ie).resp.message =
        some "Password must be at least 6 characters") ∧
    (register email password nameV store hash key ie).store = store ∧
    (register email password nameV store hash key ie).ops = [] := by
  rcases h with h | h
  · simp [register, h]
  · cases h1 : (email.truthy && password.truthy)
    · simp [register, h1]
    · simp [register, h1, h]

/-- Witness for C5: a 5-character password is rejected with 400 and an empty
operation trace. -/
theorem register_validation_failure_pure_witness :
    (register (.str "a@b.com") (.str "abcde") .undef oneUserStore
        (fun s => s) "k" none).resp.status = 400 ∧
    (register (.str "a@b.com") (.str "abcde") .undef oneUserStore
        (fun s => s) "k" none).ops = [] := by
  have h := register_validation_failure_pure (.str "a@b.com") (.str "abcde")
    .undef oneUserStore (fun s => s) "k" none (Or.inr (by decide))
  exact ⟨h.1, h.2.2.2⟩

/-- C3: the three login failure causes — no user with the (normalized)
email, an existing user whose stored hash is absent or unset, and a wrong
password for an existing user — all produce the identical generic 401
response `invalidCredsResp`. -/
theorem login_generic_invalid_credentials
    (email password : JsVal) (store : Store)
    (cmp : String → String → Bool) (signToken : Nat → String)
    (he : email.truthy = true) (hp : password.truthy = true) :
    ((∀ r ∈ store.rows, r.email ≠ some (lowerStr (jsToString email))) →
      login email password store cmp signToken = invalidCredsResp) ∧
    (∀ u,
      store.rows.find?
          (fun r => r.email == some (lowerStr (jsToString email))) = some u →
      u.password_hash = none ∨ u.password_hash = some "" →
      login email password store cmp signToken = invalidCredsResp) ∧
    (∀ u hv,
      store.rows.find?
          (fun r => r.email == some (lowerStr (jsToString email))) = some u →
      u.password_hash = some hv → hv ≠ "" →
      cmp (jsToString password) hv = false →
      login email password store cmp signToken = invalidCredsResp) := by
  refine ⟨?_, ?_, ?_⟩
  · intro hnone
    have hfind : store.rows.find?
        (fun r => r.email == some (lowerStr (jsToString email))) = none := by
      rw [List.find?_eq_none]
      intro x hx
      simp only [beq_iff_eq]
      exact hnone x hx
    simp [login, he, hp, hfind]
  · intro u hfind hph
    rcases hph with h | h <;> simp [login, he, hp, hfind, h]
  · intro u hv hfind hph hne hcmp
    simp [login, he, hp, hfind, hph, hne, hcmp]

/-- Witness for C3: login with a nonexistent email yields the generic
invalid-credentials response. -/
theorem login_generic_invalid_credentials_witness :
    login (.str "ghost@b.com") (.str "pw") oneUserStore
      (fun _ _ => true) (fun _ => "T") = invalidCredsResp :=
  (login_generic_invalid_credentials (.str "ghost@b.com") (.str "pw")
      oneUserStore (fun _ _ => true) (fun _ => "T")
      (by decide) (by decide)).1 (by decide)

/-- The empty header yields no token segment. -/
theorem tokenOf_empty : tokenOf "" = none := by decide

/-- C4: the access middleware rejects with a 401 response — without ever
reaching the handler — when the Authorization header is missing (or falsy),
when it has no second segment, when verification fails with expiry, and on
any other verification failure; and it proceeds to the handler with the
decoded payload attached exactly when verification succeeds.  By
construction `verifyToken` takes no store argument: it is a pure gate. -/
theorem verifyToken_gate {α : Type} (verify : String → Except VerifyErr α)
    (hdr : Option String) :
    ((hdr = none ∨ hdr = some "") →
      verifyToken verify hdr = .reject noTokenResp) ∧
    (∀ s, hdr = some s → s ≠ "" → tokenOf s = none →
      verifyToken verify hdr = .reject badFormatResp) ∧
    (∀ s tok, hdr = some s → tokenOf s = some tok →
      verify tok = .error .expired →
      verifyToken verify hdr = .reject expiredResp) ∧
    (∀ s tok m, hdr = some s → tokenOf s = some tok →
      verify tok = .error (.other m) →
      verifyToken verify hdr = .reject (invalidTokenResp m)) ∧
    (∀ s tok p, hdr = some s → tokenOf s = some tok → verify tok = .ok p →
      verifyToken verify hdr = .proceed p) ∧
    (∀ p, verifyToken verify hdr = .proceed p →
      ∃ s tok, hdr = some s ∧ tokenOf s = some tok ∧ verify tok = .ok p) := by
  refine ⟨?_, ?_, ?_, ?_, ?_, ?_⟩
  · rintro (rfl | rfl) <;> simp [verifyToken]
  · rintro s rfl hs ht
    simp [verifyToken, hs, ht]
  · rintro s tok rfl ht hv
    have hs : s ≠ "" := by rintro rfl; simp [tokenOf_empty] at ht
    simp [verifyToken, hs, ht, hv]
  · rintro s tok m rfl ht hv
    have hs : s ≠ "" := by rintro rfl; simp [tokenOf_empty] at ht
    simp [verifyToken, hs, ht, hv]
  · rintro s tok p rfl ht hv
    have hs : s ≠ "" := by rintro rfl; simp [tokenOf_empty] at ht
    simp [verifyToken, hs, ht, hv]
  · intro p hp
    cases hdr with
    | none => simp [verifyToken] at hp
    | some s =>
      by_cases hs : s = ""
      · subst hs; simp [verifyToken] at hp
      · cases ht : tokenOf s with
        | none => simp [verifyToken, hs, ht] at hp
        | some tok =>
          cases hv : verify tok with
          | ok q =>
            have hq : q = p := by simpa [verifyToken, hs, ht, hv] using hp
            exact ⟨s, tok, rfl, ht, by rw [hv, hq]⟩
          | error e =>
            cases e <;> simp [verifyToken, hs, ht, hv] at hp

/-- Witness for C4: a well-formed header whose token verifies makes the
middleware proceed with the decoded principal. -/
theorem verifyToken_gate_witness :
    verifyToken (fun t => (.ok t.length : Except VerifyErr Nat))
      (some "Bearer tok") = .proceed 3 :=
  (verifyToken_gate (fun t => (.ok t.length : Except VerifyErr Nat))
      (some "Bearer tok")).2.2.2.2.1 "Bearer tok" "tok" 3 rfl (by decide) rfl

/-- A two-segment header with a space-free scheme and token yields exactly
the token as second segment, whatever the scheme is. -/
theorem tokenOf_two_segments (scheme tok : String)
    (h1 : ∀ c ∈ scheme.data, c ≠ ' ') (h2 : ∀ c ∈ tok.data, c ≠ ' ')
    (h3 : tok ≠ "") :
    tokenOf (scheme ++ " " ++ tok) = some tok := by
  have hd : (scheme ++ " " ++ tok).data = scheme.data ++ ' ' :: tok.data := by
    rw [String.data_append, String.data_append]
    simp
  have htd : tok.data ≠ [] := by
    intro h
    apply h3
    have he : tok = String.mk tok.data := rfl
    rw [he, h]
  unfold tokenOf
  rw [hd, splitSp_append scheme.data tok.data h1,
    splitSp_no_space tok.data h2]
  simp [htd]

/-- C9: the middleware never checks the scheme word — any
`<scheme> <token>` header hands the second segment to `verify` and, if it
verifies, the request is authenticated; a bare single-segment header is
rejected as an invalid token format. -/
theorem verifyToken_ignores_scheme {α : Type}
    (verify : String → Except VerifyErr α) (scheme tok : String)
    (h1 : ∀ c ∈ scheme.data, c ≠ ' ') (h2 : ∀ c ∈ tok.data, c ≠ ' ')
    (h3 : tok ≠ "") :
    (∀ p, verify tok = .ok p →
      verifyToken verify (some (scheme ++ " " ++ tok)) = .proceed p) ∧
    (∀ bare : String, (∀ c ∈ bare.data, c ≠ ' ') → bare ≠ "" →
      verifyToken verify (some bare) = .reject badFormatResp) := by
  constructor
  · intro p hp
    have htk := tokenOf_two_segments scheme tok h1 h2 h3
    have hne : scheme ++ " " ++ tok ≠ "" := by
      intro h
      have hd : (scheme ++ " " ++ tok).data = scheme.data ++ ' ' :: tok.data := by
        rw [String.data_append, String.data_append]
        simp
      rw [h] at hd
      have hnil : ([] : List Char) = scheme.data ++ ' ' :: tok.data := hd
      exact absurd hnil.symm (by simp)
    simp [verifyToken, hne, htk, hp]
  · intro bare hb hbne
    have ht : tokenOf bare = none := by
      unfold tokenOf
      rw [splitSp_no_space bare.data hb]
      rfl
    simp [verifyToken, hbne, ht]

/-- Witness for C9: a `Basic`-scheme header authenticates when the token
verifies, while a bare token with no scheme is rejected. -/
theorem verifyToken_ignores_scheme_witness :
    verifyToken (fun t => (.ok t.length : Except VerifyErr Nat))
      (some ("Basic" ++ " " ++ "tok")) = .proceed 3 ∧
    verifyToken (fun t => (.ok t.length : Except VerifyErr Nat))
      (some "tok") = .reject badFormatResp := by
  have h := verifyToken_ignores_scheme
    (fun t => (.ok t.length : Except VerifyErr Nat)) "Basic" "tok"
    (by decide) (by decide) (by decide)
  exact ⟨h.1 3 rfl, h.2 "tok" (by decide) (by decide)⟩

/-- C1: when the INSERT of a register request that passed validation and the
pre-check fails with the store's uniqueness-violation error (code `23505` or
a `duplicate key` message), `register` answers with the same 409 conflict
response as the pre-check path and never with a 500. -/
theorem register_duplicate_key_conflict
    (email password nameV : JsVal) (store : Store) (hash : String → String)
    (key : String) (e : DbError)
    (h1 : email.truthy = true) (h2 : password.truthy = true)
    (h3 : pwStringOk password = true)
    (h4 : store.rows.any
        (fun r => r.email == some (lowerStr (jsToString email))) = false)
    (h5 : anyInsertCol store.schema = true)
    (h6 : isDuplicateKeyError e = true) :
    (register email password nameV store hash key (some e)).resp =
      emailConflictResp ∧
    (register email password nameV store hash key (some e)).resp.status ≠
      500 ∧
    ∀ (store₂ : Store) (ie : Option DbError),
      store₂.rows.any
          (fun r => r.email == some (lowerStr (jsToString email))) = true →
      (register email password nameV store₂ hash key ie).resp =
        emailConflictResp := by
  refine ⟨?_, ?_, ?_⟩
  · simp [register, h1, h2, h3, h4, h5, h6]
  · simp [register, h1, h2, h3, h4, h5, h6, emailConflictResp]
  · intro store₂ ie hdup
    simp [register, h1, h2, h3, hdup]

/-- Witness for C1: a `23505` insert error on an otherwise fresh
registration yields the conflict response. -/
theorem register_duplicate_key_conflict_witness :
    (register (.str "a@b.com") (.str "secret1") .undef ⟨fullSchema, []⟩
        (fun s => s) "k" (some ⟨some "23505", "duplicate key"⟩)).resp =
      emailConflictResp :=
  (register_duplicate_key_conflict (.str "a@b.com") (.str "secret1") .undef
      ⟨fullSchema, []⟩ (fun s => s) "k" ⟨some "23505", "duplicate key"⟩
      (by decide) (by decide) (by decide) (by decide) (by decide)
      (by decide)).1

/-- C2: `register` and `login` normalize the email to lowercase before any
store comparison or write; a registration that succeeds with email `E`
stores the lowercased email, and a second registration with any case-variant
of `E` receives the 409 conflict — exactly one success and one conflict. -/
theorem register_case_insensitive_unique
    (E V : String) (pw pw2 nm nm2 : JsVal) (store : Store)
    (hash : String → String) (key key2 : String) (ie2 : Option DbError)
    (hSch : store.schema.email = true)
    (hE : E ≠ "") (hV : V ≠ "")
    (hpw : pw.truthy = true) (hpwOk : pwStringOk pw = true)
    (hpw2 : pw2.truthy = true) (hpw2Ok : pwStringOk pw2 = true)
    (hNoDup : store.rows.any
        (fun r => r.email == some (lowerStr E)) = false)
    (hCols : anyInsertCol store.schema = true)
    (hVar : lowerStr V = lowerStr E) :
    (register (.str E) pw nm store hash key none).resp.status = 201 ∧
    (∃ row, (register (.str E) pw nm store hash key none).store.rows =
        store.rows ++ [row] ∧ row.email = some (lowerStr E)) ∧
    (register (.str V) pw2 nm2
        (register (.str E) pw nm store hash key none).store hash key2
        ie2).resp = emailConflictResp ∧
    (∀ (st : Store) (cmp : String → String → Bool) (sg : Nat → String),
      login (.str V) pw2 st cmp sg = login (.str E) pw2 st cmp sg) := by
  have hreg : register (.str E) pw nm store hash key none =
      ⟨{ status := 201, success := true, message := some "Account created" },
        ⟨store.schema, store.rows ++
          [{ uid := store.rows.length
             email := if store.schema.email then some (lowerStr E) else none
             full_name := if store.schema.full_name then
               some (if nm.truthy then jsToString nm
                 else localPart (lowerStr E)) else none
             name := if store.schema.name then
               some (if nm.truthy then jsToString nm
                 else localPart (lowerStr E)) else none
             password_hash := if store.schema.password_hash then
               some (hash (jsToString pw)) else none
             aadhaar_key := if store.schema.aadhaar_key then some key
               else none }]⟩,
        [.selectExistsByEmail, .selectUserColumns, .insertUsers]⟩ := by
    have hEt : JsVal.truthy (.str E) = true := by simp [JsVal.truthy, hE]
    have hEs : jsToString (.str E) = E := rfl
    simp [register, hEt, hEs, hpw, hpwOk, hNoDup, hCols]
  have hVt : JsVal.truthy (.str V) = true := by simp [JsVal.truthy, hV]
  have hEt : JsVal.truthy (.str E) = true := by simp [JsVal.truthy, hE]
  have hEs : jsToString (.str E) = E := rfl
  have hVs : jsToString (.str V) = V := rfl
  refine ⟨?_, ?_, ?_, ?_⟩
  · rw [hreg]
  · rw [hreg]
    exact ⟨_, rfl, by simp [hSch]⟩
  · rw [hreg]
    simp [register, hVt, hVs, hpw2, hpw2Ok, List.any_append, hVar, hSch,
      hNoDup]
  · intro st cmp sg
    simp [login, hVt, hEt, hVs, hEs, hpw2, hVar]

/-- Witness for C2: registering `A@B.Com` then `a@b.COM` yields one 201 and
one 409. -/
theorem register_case_insensitive_unique_witness :
    (register (.str "A@B.Com") (.str "secret1") .undef ⟨fullSchema, []⟩
        (fun s => s) "k" none).resp.status = 201 ∧
    (register (.str "a@b.COM") (.str "secret2") .undef
        (register (.str "A@B.Com") (.str "secret1") .undef ⟨fullSchema, []⟩
          (fun s => s) "k" none).store
        (fun s => s) "k2" none).resp = emailConflictResp := by
  have h := register_case_insensitive_unique "A@B.Com" "a@b.COM"
    (.str "secret1") (.str "secret2") .undef .undef ⟨fullSchema, []⟩
    (fun s => s) "k" "k2" none (by decide) (by decide) (by decide)
    (by decide) (by decide) (by decide) (by decide) (by decide) (by decide)
    (by decide)
  exact ⟨h.1, h.2.2.1⟩

/-- C6 counterexample: with no name-bearing column, an authenticated
`updateProfile` with a valid name answers 400 (`No updatable name column
found`), not the 500 the claim asserts. -/
theorem updateProfile_no_name_column_counterexample :
    (updateProfile (some ⟨1⟩) (.str "Bob")
        ⟨⟨true, false, false, true, false, true⟩, []⟩).1.status = 400 ∧
    ¬ (updateProfile (some ⟨1⟩) (.str "Bob")
        ⟨⟨true, false, false, true, false, true⟩, []⟩).1.status = 500 := by
  decide

/-- C6 as amended: an authenticated `updateProfile` with a non-empty string
name writes the new name into every name-bearing column present among
`full_name` and `name` and answers 200; when neither column exists it fails
with status 400 and message `No updatable name column found`, leaving the
store unchanged. -/
theorem updateProfile_name_columns
    (p : Payload) (s : String) (store : Store)
    (hu : p.userId ≠ 0) (hs : s ≠ "") :
    ((store.schema.full_name || store.schema.name) = true →
      (updateProfile (some p) (.str s) store).1 =
        { status := 200, success := true, message := some "Profile updated",
          name := some s } ∧
      (∀ r ∈ store.rows, r.uid = p.userId →
        ∃ r' ∈ (updateProfile (some p) (.str s) store).2.rows,
          r'.uid = r.uid ∧
          (store.schema.full_name = true → r'.full_name = some s) ∧
          (store.schema.name = true → r'.name = some s))) ∧
    (store.schema.full_name = false → store.schema.name = false →
      (updateProfile (some p) (.str s) store).1 =
        { status := 400, success := false,
          message := some "No updatable name column found" } ∧
      (updateProfile (some p) (.str s) store).2 = store) := by
  have hst : JsVal.truthy (.str s) = true := by simp [JsVal.truthy, hs]
  have hsi : JsVal.isStr (.str s) = true := rfl
  have hss : jsToString (.str s) = s := rfl
  constructor
  · intro hcol
    constructor
    · simp [updateProfile, hu, hst, hsi, hss, hcol]
    · intro r hr hruid
      have hrows : (updateProfile (some p) (.str s) store).2.rows =
          store.rows.map (updateRowName store.schema p.userId s) := by
        simp [updateProfile, hu, hst, hsi, hss, hcol]
      refine ⟨updateRowName store.schema p.userId s r, ?_, ?_, ?_, ?_⟩
      · rw [hrows]
        exact List.mem_map_of_mem _ hr
      · simp [updateRowName, hruid]
      · intro hf; simp [updateRowName, hruid, hf]
      · intro hn; simp [updateRowName, hruid, hn]
  · intro hf hn
    constructor <;> simp [updateProfile, hu, hst, hsi, hss, hf, hn]

/-- Witness for the amended C6 at a concrete store. -/
theorem updateProfile_name_columns_witness :
    (updateProfile (some ⟨1⟩) (.str "Bob") oneUserStore).1 =
      { status := 200, success := true, message := some "Profile updated",
        name := some "Bob" } :=
  ((updateProfile_name_columns ⟨1⟩ "Bob" oneUserStore (by decide)
      (by decide)).1 (by decide)).1

/-- C10: a valid authenticated `updateProfile` whose principal matches no
user row still answers 200 with the new name (the UPDATE affects zero rows
and no row count is checked), never 404 — unlike `getMe`, which answers 404
for the same vanished principal. -/
theorem updateProfile_vanished_principal_ok
    (p : Payload) (s : String) (store : Store)
    (hu : p.userId ≠ 0) (hs : s ≠ "")
    (hcol : (store.schema.full_name || store.schema.name) = true)
    (habs : ∀ r ∈ store.rows, r.uid ≠ p.userId) :
    (updateProfile (some p) (.str s) store).1 =
      { status := 200, success := true, message := some "Profile updated",
        name := some s } ∧
    (updateProfile (some p) (.str s) store).1.status ≠ 404 ∧
    (updateProfile (some p) (.str s) store).2 = store ∧
    getMe (some p) store =
      { status := 404, success := false,
        message := some "User not found" } := by
  have hst : JsVal.truthy (.str s) = true := by simp [JsVal.truthy, hs]
  have hsi : JsVal.isStr (.str s) = true := rfl
  have hss : jsToString (.str s) = s := rfl
  have hmap : store.rows.map (updateRowName store.schema p.userId s) =
      store.rows :=
    map_eq_self_of_fixes _ _ (fun r hr => by
      simp [updateRowName, habs r hr])
  have hfind : store.rows.find? (fun r => r.uid == p.userId) = none := by
    rw [List.find?_eq_none]
    intro x hx
    simp [habs x hx]
  refine ⟨?_, ?_, ?_, ?_⟩
  · simp [updateProfile, hu, hst, hsi, hss, hcol]
  · simp [updateProfile, hu, hst, hsi, hss, hcol]
  · simp [updateProfile, hu, hst, hsi, hss, hcol, hmap]
  · simp [getMe, hu, hfind]

/-- Witness for C10: a principal with id 9 matches no row of the one-user
store. -/
theorem updateProfile_vanished_principal_ok_witness :
    (updateProfile (some ⟨9⟩) (.str "Bob") oneUserStore).1.status ≠ 404 ∧
    getMe (some ⟨9⟩) oneUserStore =
      { status := 404, success := false,
        message := some "User not found" } := by
  have h := updateProfile_vanished_principal_ok ⟨9⟩ "Bob" oneUserStore
    (by decide) (by decide) (by decide) (by decide)
  exact ⟨h.2.1, h.2.2.2⟩

/-- Membership in the verify-access join: a triple is returned exactly when
its parts are rows of the three tables and the query predicate holds. -/
theorem mem_accessRows {u : Nat} {q : String} {db : BookingDb} {now : Int}
    {x : Booking × Room × BookingToken} :
    x ∈ accessRows u q db now ↔
      x.1 ∈ db.bookings ∧ x.2.1 ∈ db.rooms ∧ x.2.2 ∈ db.tokens ∧
        accessPred u q now x.1 x.2.1 x.2.2 := by
  rcases x with ⟨b, r, bt⟩
  simp only [accessRows, List.mem_flatMap, List.mem_filterMap]
  constructor
  · rintro ⟨b', hb', r', hr', bt', hbt', hif⟩
    by_cases h : accessPred u q now b' r' bt'
    · rw [if_pos h] at hif
      simp only [Option.some.injEq, Prod.mk.injEq] at hif
      obtain ⟨rfl, rfl, rfl⟩ := hif
      exact ⟨hb', hr', hbt', h⟩
    · rw [if_neg h] at hif
      cases hif
  · rintro ⟨hb, hr, hbt, hp⟩
    exact ⟨b, hb, r, hr, bt, hbt, by rw [if_pos hp]⟩

/-- C8: with both identifiers present, verify-access answers 200 with a
stored booking token identifier and its pre-computed signature exactly when
some booking owned by the user, for a room with the presented QR code, with
a valid associated token and `check_in_time ≤ now ≤ check_out_time` exists;
otherwise it answers the single generic 403 response whatever predicate
failed. -/
theorem verifyAccess_characterization
    (u : Nat) (q : String) (db : BookingDb) (now : Int)
    (hu : u ≠ 0) (hq : q ≠ "") :
    ((verifyAccess (some u) (some q) db now).status = 200 ↔
      ∃ b ∈ db.bookings, ∃ r ∈ db.rooms, ∃ bt ∈ db.tokens,
        accessPred u q now b r bt) ∧
    ((¬ ∃ b ∈ db.bookings, ∃ r ∈ db.rooms, ∃ bt ∈ db.tokens,
        accessPred u q now b r bt) →
      verifyAccess (some u) (some q) db now = accessDeniedResp) ∧
    ((∃ b ∈ db.bookings, ∃ r ∈ db.rooms, ∃ bt ∈ db.tokens,
        accessPred u q now b r bt) →
      ∃ b ∈ db.bookings, ∃ r ∈ db.rooms, ∃ bt ∈ db.tokens,
        accessPred u q now b r bt ∧
        (verifyAccess (some u) (some q) db now).booking_token =
          some bt.token_id ∧
        (verifyAccess (some u) (some q) db now).digital_signature =
          some bt.digital_signature) := by
  have hred : verifyAccess (some u) (some q) db now =
      match accessRows u q db now with
      | [] => accessDeniedResp
      | m :: _ =>
        { status := 200, success := true, message := some "Access granted!",
          booking_token := some m.2.2.token_id,
          digital_signature := some m.2.2.digital_signature } := by
    simp [verifyAccess, hu, hq]
  cases hAR : accessRows u q db now with
  | nil =>
    have hnone : ¬ ∃ b ∈ db.bookings, ∃ r ∈ db.rooms, ∃ bt ∈ db.tokens,
        accessPred u q now b r bt := by
      rintro ⟨b, hb, r, hr, bt, hbt, hp⟩
      have hm : (b, r, bt) ∈ accessRows u q db now :=
        mem_accessRows.mpr ⟨hb, hr, hbt, hp⟩
      rw [hAR] at hm
      cases hm
    rw [hred, hAR]
    exact ⟨iff_of_false (by decide) hnone, fun _ => rfl,
      fun h => absurd h hnone⟩
  | cons m rest =>
    have hm : m ∈ accessRows u q db now := by
      rw [hAR]
      exact List.mem_cons_self m rest
    obtain ⟨hb, hr, hbt, hp⟩ := mem_accessRows.mp hm
    rw [hred, hAR]
    exact ⟨iff_of_true rfl ⟨m.1, hb, m.2.1, hr, m.2.2, hbt, hp⟩,
      fun hn => absurd ⟨m.1, hb, m.2.1, hr, m.2.2, hbt, hp⟩ hn,
      fun _ => ⟨m.1, hb, m.2.1, hr, m.2.2, hbt, hp, rfl, rfl⟩⟩

/-- Witness for C8: user 5 presenting QR `QR1` inside the booking window is
granted access. -/
theorem verifyAccess_characterization_witness :
    (verifyAccess (some 5) (some "QR1") sampleDb 50).status = 200 :=
  (verifyAccess_characterization 5 "QR1" sampleDb 50 (by decide)
      (by decide)).1.mpr (by decide)

end StayLink
